import Mathlib

/-
Verification development for the gqlmapi bindings layer (src/Bindings.cpp).

The file shallowly embeds the query/subscription lifecycle manager:
the `Subscription` delivery-state object, the `RegisteredSubscription`
wrapper, and the `Bindings::impl` facade with its two handle registries.
External collaborators (the MAPI GraphQL execution service, the JSON
codec, the GraphQL parser) are modelled as oracle functions collected in
an `Env` structure; the embedded code never inspects them beyond what the
C++ does.  Callback invocations and remote stream releases are recorded
as explicit events so that exactly-once / ordering properties can be
stated about traces.
-/

set_option maxHeartbeats 1000000

namespace GqlMapi

/-- Generic tagged response value tree (graphql::response::Value): the payload
shape for results, variables and `data`/`errors` envelopes.  Only the
structure relevant to the bindings is kept (a float payload is irrelevant to
every property here, so floats are folded into `str`-like opacity). -/
inductive RValue where
  | map (entries : List (String × RValue))
  | list (elems : List RValue)
  | str (s : String)
  | boolean (b : Bool)
  | intV (n : Int)
  | null

/-- Tree-tag test used by `Bindings::impl::subscribe`:
`parsedVariables.type() != response::Type::Map`. -/
def RValue.isMapType : RValue → Bool
  | RValue.map _ => true
  | _ => false

/-- graphql::service::strData. -/
def strData : String := "data"

/-- graphql::service::strErrors. -/
def strErrors : String := "errors"

/-- graphql::service::strSubscription: the operation type of a subscription
operation. -/
def strSubscription : String := "subscription"

/-- The fixed message text prepended by `Subscription::Deliver` when an
unexpected exception is caught. -/
def caughtExnText : String := "Caught exception delivering subscription payload: "

/-- Observable callback / remote-call events emitted by the bindings:
`next` is an invocation of the caller's next-callback with the serialized
JSON text, `complete` an invocation of the completion-callback, and
`release key` a blocking `service->unsubscribe(key)` remote release. -/
inductive Event where
  | next (json : String)
  | complete
  | release (key : Nat)
deriving DecidableEq, Repr

def isComplete : Event → Bool
  | Event.complete => true
  | _ => false

def isRelease : Event → Bool
  | Event.release _ => true
  | _ => false

/-- The mutable state of a `Subscription` object that the lifecycle logic
branches on: the `_registered` flag and the optional
`_key : std::optional<service::SubscriptionKey>`. -/
structure SubState where
  registered : Bool
  key : Option Nat
deriving DecidableEq, Repr

/-- `Subscription::Subscribe(key)`: sets `_registered = true` and records the
stream key. -/
def Subscription.Subscribe (key : Nat) (_ : SubState) : SubState :=
  { registered := true, key := some key }

/-- `Subscription::Unsubscribe()`: returns early if not `_registered`;
otherwise clears `_registered`, moves `_key` out, locks the weak service
reference (`serviceAlive` says whether the lock succeeds), and only when a
key was recorded and the service is still reachable performs the blocking
remote release followed by `Complete()`. -/
def Subscription.Unsubscribe (serviceAlive : Bool) (s : SubState) : SubState × List Event :=
  if s.registered = false then
    (s, [])
  else
    let deferUnsubscribe := s.key
    let s2 : SubState := { registered := false, key := none }
    match deferUnsubscribe, serviceAlive with
    | some key, true => (s2, [Event.release key, Event.complete])
    | _, _ => (s2, [])

/-- The producer's resolved payload as seen by `Subscription::Deliver`: the
future either yields a value, throws a `service::schema_exception`, or throws
some other `std::exception`. -/
inductive PayloadResult where
  | value (v : RValue)
  | schemaError (errors : RValue)
  | otherError (what : String)

/-- The `{data, errors}` document built by `Subscription::Deliver` from the
payload future: a normal value is passed through unchanged; a
`schema_exception` yields `{data: null, errors: scx.getErrors()}`; any other
exception yields `{data: null, errors: "<fixed text><ex.what()>"}`. -/
def Subscription.DeliverDoc : PayloadResult → RValue
  | PayloadResult.value v => v
  | PayloadResult.schemaError errs =>
      RValue.map [(strData, RValue.null), (strErrors, errs)]
  | PayloadResult.otherError what =>
      RValue.map [(strData, RValue.null),
                  (strErrors, RValue.str (caughtExnText ++ what))]

/-- `Subscription::Deliver`: serializes the document through the JSON codec
(`toJSONs` oracle) and invokes the next-callback — one `next` event.  The
function is total: no exception escapes the delivery path. -/
def Subscription.Deliver (toJSONs : RValue → String) (p : PayloadResult) : Event :=
  Event.next (toJSONs (Subscription.DeliverDoc p))

/-- Operations that can hit one `Subscription` during its life after
creation.  `unsub serviceAlive` covers every path that reaches
`Subscription::Unsubscribe`: an explicit `Bindings::unsubscribe`, the
destructor (`~Subscription` calls `Unsubscribe()`), and the per-entry
`Unsubscribe()` loop of `stopService`; the flag records whether the weak
service reference still locks at that moment.  `deliver` is a
producer-driven push through `Subscription::Deliver`. -/
inductive SubOp where
  | unsub (serviceAlive : Bool)
  | deliver (p : PayloadResult)

/-- Run a sequence of operations against a subscription state, collecting the
emitted events in order. -/
def runOps (toJSONs : RValue → String) (s : SubState) : List SubOp → SubState × List Event
  | [] => (s, [])
  | SubOp.unsub f :: rest =>
      let step := Subscription.Unsubscribe f s
      let tail := runOps toJSONs step.1 rest
      (tail.1, step.2 ++ tail.2)
  | SubOp.deliver p :: rest =>
      let tail := runOps toJSONs s rest
      (tail.1, Subscription.Deliver toJSONs p :: tail.2)

/-- How `RegisteredSubscription`'s constructor initializes its Subscription:
for a genuine subscription operation it registers a live stream and stores
the returned key (`streaming`); for a query/mutation it resolves once,
delivers the single result, and completes immediately (`oneShot`). -/
inductive Creation where
  | streaming (key : Nat)
  | oneShot (p : PayloadResult)

/-- Initial subscription state and the events emitted during construction. -/
def createSub (toJSONs : RValue → String) : Creation → SubState × List Event
  | Creation.streaming key =>
      (Subscription.Subscribe key { registered := false, key := none }, [])
  | Creation.oneShot p =>
      ({ registered := false, key := none },
       [Subscription.Deliver toJSONs p, Event.complete])

/-- The full observable trace of one Subscription: construction events
followed by the events of an arbitrary operation sequence. -/
def lifeTrace (toJSONs : RValue → String) (c : Creation) (ops : List SubOp) : List Event :=
  let start := createSub toJSONs c
  start.2 ++ (runOps toJSONs start.1 ops).2

/-- Holds when no remote release appears anywhere after a completion event:
every release in the trace precedes every completion. -/
def completesAfterReleases : List Event → Bool
  | [] => true
  | Event.complete :: rest =>
      rest.all (fun x => !(isRelease x)) && completesAfterReleases rest
  | _ :: rest => completesAfterReleases rest

/-- Key list of an association list standing for a `std::map<std::int32_t, _>`. -/
def keyList {α : Type} (m : List (Int × α)) : List Int := m.map Prod.fst

/-- `map.find(j)`. -/
def lookupKey {α : Type} : List (Int × α) → Int → Option α
  | [], _ => none
  | (k, v) :: rest, j => if k = j then some v else lookupKey rest j

/-- `map.erase(j)`. -/
def eraseKey {α : Type} (m : List (Int × α)) (j : Int) : List (Int × α) :=
  m.filter (fun p => p.1 != j)

/-- `map[j] = v` (insert-or-assign). -/
def insertKey {α : Type} (m : List (Int × α)) (j : Int) (v : α) : List (Int × α) :=
  eraseKey m j ++ [(j, v)]

/-- The largest key of the map, i.e. `map.crbegin()->first` for a non-empty
`std::map` (which iterates in ascending key order). -/
def maxKeys {α : Type} : List (Int × α) → Option Int
  | [] => none
  | (k, _) :: rest =>
      match maxKeys rest with
      | none => some k
      | some m => some (if k ≤ m then m else k)

/-- The handle allocation expression
`(map.empty() ? 1 : map.crbegin()->first + 1)` shared by `parseQuery` and
`subscribe`. -/
def freshId {α : Type} (m : List (Int × α)) : Int :=
  match maxKeys m with
  | none => 1
  | some mx => mx + 1

/-- The `RegisteredSubscription` record held in the subscription registry:
`alive` models the owned `std::shared_ptr<Subscription>` being non-null,
`state` the owned Subscription's lifecycle state, `gen` identifies which
backing-service instance its weak reference points at, and `doc` is the
registration-time copy of the parsed query document (`peg::ast{ast}`). -/
structure RegisteredSubscription where
  alive : Bool
  state : SubState
  gen : Nat
  doc : String

/-- `RegisteredSubscription::Unsubscribe()`: forwards to the owned
Subscription's `Unsubscribe()` and releases ownership, so a second call is a
no-op.  `serviceAlive` tells whether the Subscription's weak service
reference still locks. -/
def RegisteredSubscription.Unsubscribe (serviceAlive : Bool)
    (rs : RegisteredSubscription) : RegisteredSubscription × List Event :=
  if rs.alive then
    let step := Subscription.Unsubscribe serviceAlive rs.state
    ({ rs with alive := false, state := step.1 }, step.2)
  else
    (rs, [])

/-- External collaborators consumed by the bindings, as oracles:
- `peg`: `peg::parseString` — `none` models a thrown GraphQL parse error;
- `parseJSONv`: the JSON codec's `parseJSON` — `none` models a throw on
  malformed JSON text;
- `toJSONs`: the codec's `toJSON` serializer;
- `findOperationKind`: `service->findOperationDefinition(ast, name).first`;
- `subscribeKey`: the stream key returned by the blocking
  `service->subscribe(...)` registration;
- `resolve`: the outcome of the blocking one-shot
  `service->resolve(...)` execution. -/
structure Env where
  peg : String → Option String
  parseJSONv : String → Option RValue
  toJSONs : RValue → String
  findOperationKind : String → String → String
  subscribeKey : String → String → RValue → Nat
  resolve : String → String → RValue → PayloadResult

/-- The state of a `Bindings::impl` instance: the owned backing-service
handle (`some gen` when held, tagged with the instance generation so that
weak references of older subscriptions no longer lock), the generation
counter for `mapi::GetService`, and the two handle registries. -/
structure ImplState where
  service : Option Nat
  nextGen : Nat
  queryMap : List (Int × String)
  subscriptionMap : List (Int × RegisteredSubscription)

/-- The freshly constructed `Bindings::impl`. -/
def ImplState.initial : ImplState :=
  { service := none, nextGen := 0, queryMap := [], subscriptionMap := [] }

/-- `Bindings::impl::startService`: acquires a backing-service handle.
`mapi::GetService` is an external collaborator; per the spec it hands out an
instance whose replacement orphans prior subscriptions ("calling it again
replaces the handle — prior outstanding subscriptions become orphaned"), so
each acquisition gets a fresh generation. -/
def Impl.startService (st : ImplState) : ImplState :=
  { st with service := some st.nextGen, nextGen := st.nextGen + 1 }

/-- `Bindings::impl::parseQuery`: computes the next query handle, parses the
text (a parse failure propagates to the caller as a `ParseError` and leaves
the registry untouched), stores the document and returns the handle. -/
def Impl.parseQuery (env : Env) (st : ImplState) (query : String) :
    ImplState × Except Unit Int :=
  let queryId := freshId st.queryMap
  match env.peg query with
  | none => (st, Except.error ())
  | some ast =>
      ({ st with queryMap := insertKey st.queryMap queryId ast }, Except.ok queryId)

/-- `Bindings::impl::discardQuery`: `queryMap.erase(queryId)`. -/
def Impl.discardQuery (st : ImplState) (queryId : Int) : ImplState :=
  { st with queryMap := eraseKey st.queryMap queryId }

/-- The errors `Bindings::impl::subscribe` can throw: "Unknown queryId",
"Invalid variables object", "Did not call startService", and a JSON parse
failure propagating out of `parseJSON`. -/
inductive SubscribeError where
  | unknownQuery
  | invalidVariables
  | serviceNotStarted
  | badVariablesJson
deriving DecidableEq, Repr

/-- Successful result of `Bindings::impl::subscribe`: the allocated handle,
the updated state, and the callback/release events emitted synchronously
inside the call (the one-shot branch delivers and completes inline). -/
structure SubscribeOk where
  subscriptionId : Int
  state : ImplState
  events : List (Int × Event)

/-- The streaming branch of `RegisteredSubscription`'s constructor as run
from `subscribe`: the new handle, the registry entry holding the Subscription
subscribed with the stream key returned by the backing service and its own
copy (`peg::ast{ast}`) of the document, and no synchronous events. -/
def streamingOk (env : Env) (st : ImplState) (ast opName : String) (pv : RValue)
    (gen : Nat) : SubscribeOk :=
  let subscriptionId := freshId st.subscriptionMap
  let key := env.subscribeKey ast opName pv
  let rs : RegisteredSubscription :=
    { alive := true,
      state := Subscription.Subscribe key { registered := false, key := none },
      gen := gen, doc := ast }
  let st2 : ImplState :=
    { st with subscriptionMap := insertKey st.subscriptionMap subscriptionId rs }
  { subscriptionId := subscriptionId, state := st2, events := [] }

/-- The one-shot (query/mutation) branch of `RegisteredSubscription`'s
constructor as run from `subscribe`: resolve once, deliver the single result,
complete immediately; the stored Subscription never registers a key. -/
def oneshotOk (env : Env) (st : ImplState) (ast opName : String) (pv : RValue)
    (gen : Nat) : SubscribeOk :=
  let subscriptionId := freshId st.subscriptionMap
  let payload := env.resolve ast opName pv
  let rs : RegisteredSubscription :=
    { alive := true, state := { registered := false, key := none },
      gen := gen, doc := ast }
  let st2 : ImplState :=
    { st with subscriptionMap := insertKey st.subscriptionMap subscriptionId rs }
  { subscriptionId := subscriptionId, state := st2,
    events := [(subscriptionId, Subscription.Deliver env.toJSONs payload),
               (subscriptionId, Event.complete)] }

/-- The `RegisteredSubscription` constructor's classification branch:
`service->findOperationDefinition(ast, name).first == strSubscription`. -/
def Impl.subscribeRegister (env : Env) (st : ImplState) (ast opName : String)
    (pv : RValue) (gen : Nat) : SubscribeOk :=
  if env.findOperationKind ast opName = strSubscription then
    streamingOk env st ast opName pv gen
  else
    oneshotOk env st ast opName pv gen

/-- The tail of `Bindings::impl::subscribe` after the query lookup and the
variables parse: the map-tag check, the service check, handle allocation and
registration. -/
def Impl.subscribeVars (env : Env) (st : ImplState) (ast opName : String)
    (parsedVariables : RValue) : Except SubscribeError SubscribeOk :=
  if parsedVariables.isMapType = false then
    Except.error SubscribeError.invalidVariables
  else
    match st.service with
    | none => Except.error SubscribeError.serviceNotStarted
    | some gen => Except.ok (Impl.subscribeRegister env st ast opName parsedVariables gen)

/-- `Bindings::impl::subscribe`: looks up the query handle (throws
`unknownQuery` if absent), parses the variables text (an empty string is an
empty map; a parse failure propagates), then runs the remaining checks and
the registration. -/
def Impl.subscribe (env : Env) (st : ImplState) (queryId : Int)
    (operationName : String) (variablesText : String) :
    Except SubscribeError SubscribeOk :=
  match lookupKey st.queryMap queryId with
  | none => Except.error SubscribeError.unknownQuery
  | some ast =>
      match (if variablesText = "" then some (RValue.map []) else env.parseJSONv variablesText) with
      | none => Except.error SubscribeError.badVariablesJson
      | some parsedVariables =>
          Impl.subscribeVars env st ast operationName parsedVariables

/-- `Bindings::subscribe` as a state transformer: a thrown error leaves the
registries and the service handle exactly as they were. -/
def Impl.subscribeStep (env : Env) (st : ImplState) (queryId : Int)
    (operationName : String) (variablesText : String) :
    ImplState × List (Int × Event) × Except SubscribeError Int :=
  match Impl.subscribe env st queryId operationName variablesText with
  | Except.error e => (st, [], Except.error e)
  | Except.ok r => (r.state, r.events, Except.ok r.subscriptionId)

/-- `Bindings::impl::unsubscribe`: no-op if the handle is unknown; otherwise
runs `RegisteredSubscription::Unsubscribe` (the weak service reference locks
iff the held service is the one the subscription was created against) and
erases the registry entry. -/
def Impl.unsubscribe (st : ImplState) (subscriptionId : Int) :
    ImplState × List (Int × Event) :=
  match lookupKey st.subscriptionMap subscriptionId with
  | none => (st, [])
  | some rs =>
      let step := RegisteredSubscription.Unsubscribe
        (decide (st.service = some rs.gen)) rs
      ({ st with subscriptionMap := eraseKey st.subscriptionMap subscriptionId },
       step.2.map (fun e => (subscriptionId, e)))

/-- One iteration of the `stopService` teardown loop:
`entry.second->Unsubscribe()` while the service handle (generation `gen`) is
still held, so the Subscription's weak reference locks exactly when the
entry was created against the current instance. -/
def stopEntryEvents (gen : Nat) (p : Int × RegisteredSubscription) :
    List (Int × Event) :=
  ((RegisteredSubscription.Unsubscribe (decide (gen = p.2.gen)) p.2).2).map
    (fun e => (p.1, e))

/-- `Bindings::impl::stopService`: a no-op when no service handle is held;
otherwise forces `Unsubscribe()` on every registry entry (the service handle
is still held during the loop, so a weak lock succeeds exactly for
subscriptions created against the current instance), clears both registries
and releases the handle. -/
def Impl.stopService (st : ImplState) : ImplState × List (Int × Event) :=
  match st.service with
  | none => (st, [])
  | some gen =>
      ({ st with service := none, subscriptionMap := [], queryMap := [] },
       st.subscriptionMap.flatMap (stopEntryEvents gen))

/-- The producer push path for an established stream: the backing service
invokes the registered lambda, which upgrades its weak reference to the
Subscription and, if it is still alive, calls `Deliver` — one next-callback
invocation tagged with the subscription handle. -/
def Impl.pushPayload (env : Env) (st : ImplState) (subscriptionId : Int)
    (p : PayloadResult) : List (Int × Event) :=
  match lookupKey st.subscriptionMap subscriptionId with
  | none => []
  | some rs =>
      if rs.alive then [(subscriptionId, Subscription.Deliver env.toJSONs p)] else []

/-- A concrete oracle assignment for counterexample runs: the GraphQL parser
accepts every text (the document is its own text), JSON parses to an empty
map, and every operation is classified as a subscription operation. -/
def envStream : Env :=
  { peg := fun s => some s,
    parseJSONv := fun _ => some (RValue.map []),
    toJSONs := fun _ => "",
    findOperationKind := fun _ _ => strSubscription,
    subscribeKey := fun _ _ _ => 7,
    resolve := fun _ _ _ => PayloadResult.value RValue.null }

/-- Oracles under which every operation is a one-shot query. -/
def envQuery : Env :=
  { envStream with findOperationKind := fun _ _ => "query" }

/-- Oracles under which the text "bad" fails to parse as GraphQL. -/
def envBadParse : Env :=
  { envStream with peg := fun s => if s = "bad" then none else some s }

/-- A live streaming registry entry created against service generation 0. -/
def rsLive : RegisteredSubscription :=
  { alive := true, state := { registered := true, key := some 7 },
    gen := 0, doc := "q" }

/-- Concrete registries for the allocation claim: live query handles 1 and 3,
live subscription handle 2. -/
def stAlloc : ImplState :=
  { service := some 0, nextGen := 1, queryMap := [(1, "a"), (3, "b")],
    subscriptionMap := [(2, rsLive)] }

/-- C1: the spec claims that when `Unsubscribe` runs on a Registered
subscription whose weak service reference has expired, the remote release is
skipped but `Complete()` still fires exactly once.  False: in
`Subscription::Unsubscribe` the call to `Complete()` sits inside
`if (deferUnsubscribe && service)`, so an expired service skips the
completion callback as well — at this concrete registered state the trace
contains no completion event at all. -/
theorem C1_counterexample :
    ¬ ((Subscription.Unsubscribe false { registered := true, key := some 0 }).2.countP
        isComplete = 1) := by
  decide

/-- C1 (amended): when `Unsubscribe` runs on a Registered subscription whose
weak service reference has expired, it flips the state to unregistered and
clears the key, but emits no event at all: the remote release is skipped and
`Complete()` is NOT invoked either, so the completion callback never fires
for an orphaned stream. -/
theorem C1_unsubscribe_orphaned (s : SubState) (h : s.registered = true) :
    (Subscription.Unsubscribe false s).2 = [] ∧
    (Subscription.Unsubscribe false s).1.registered = false ∧
    (Subscription.Unsubscribe false s).1.key = none := by
  unfold Subscription.Unsubscribe
  rw [h]
  cases s.key <;> simp

/-- C1 amended claim at a concrete registered state. -/
theorem C1_unsubscribe_orphaned_witness :
    (Subscription.Unsubscribe false { registered := true, key := some 3 }).2 = [] :=
  (C1_unsubscribe_orphaned { registered := true, key := some 3 } rfl).1

theorem isComplete_next (j : String) : isComplete (Event.next j) = false := rfl

theorem isComplete_complete : isComplete Event.complete = true := rfl

theorem isComplete_release (k : Nat) : isComplete (Event.release k) = false := rfl

theorem isRelease_next (j : String) : isRelease (Event.next j) = false := rfl

theorem isRelease_complete : isRelease Event.complete = false := rfl

theorem isRelease_release (k : Nat) : isRelease (Event.release k) = true := rfl

theorem isComplete_deliver (toJSONs : RValue → String) (p : PayloadResult) :
    isComplete (Subscription.Deliver toJSONs p) = false := rfl

theorem isRelease_deliver (toJSONs : RValue → String) (p : PayloadResult) :
    isRelease (Subscription.Deliver toJSONs p) = false := rfl

theorem Unsubscribe_not_registered (f : Bool) (s : SubState) (h : s.registered = false) :
    Subscription.Unsubscribe f s = (s, []) := by
  unfold Subscription.Unsubscribe
  rw [h]
  simp

theorem Unsubscribe_registered_state (f : Bool) (s : SubState) (h : s.registered = true) :
    (Subscription.Unsubscribe f s).1 = { registered := false, key := none } := by
  unfold Subscription.Unsubscribe
  rw [h]
  cases s.key <;> cases f <;> simp

theorem Unsubscribe_events_cases (f : Bool) (s : SubState) :
    (Subscription.Unsubscribe f s).2 = [] ∨
      ∃ k, (Subscription.Unsubscribe f s).2 = [Event.release k, Event.complete] := by
  unfold Subscription.Unsubscribe
  cases hr : s.registered <;> cases hk : s.key <;> cases f <;> simp

theorem countP_cons_false (p : Event → Bool) (e : Event) (l : List Event)
    (h : p e = false) : (e :: l).countP p = l.countP p := by
  rw [List.countP_cons, h]
  simp

theorem countP_cons_true (p : Event → Bool) (e : Event) (l : List Event)
    (h : p e = true) : (e :: l).countP p = l.countP p + 1 := by
  rw [List.countP_cons, h]
  simp

theorem cAR_complete (rest : List Event) :
    completesAfterReleases (Event.complete :: rest) =
      (rest.all (fun x => !(isRelease x)) && completesAfterReleases rest) := rfl

theorem cAR_next (j : String) (rest : List Event) :
    completesAfterReleases (Event.next j :: rest) = completesAfterReleases rest := rfl

theorem cAR_release (k : Nat) (rest : List Event) :
    completesAfterReleases (Event.release k :: rest) = completesAfterReleases rest := rfl

theorem cAR_deliver (toJSONs : RValue → String) (p : PayloadResult) (rest : List Event) :
    completesAfterReleases (Subscription.Deliver toJSONs p :: rest) =
      completesAfterReleases rest := rfl

theorem countP_zero_all_not (p : Event → Bool) (l : List Event) (h : l.countP p = 0) :
    l.all (fun x => !(p x)) = true := by
  induction l with
  | nil => rfl
  | cons e rest ih =>
      cases hpe : p e with
      | false =>
          rw [countP_cons_false p e rest hpe] at h
          rw [List.all_cons, hpe]
          simp only [Bool.not_false, Bool.true_and]
          exact ih h
      | true =>
          rw [countP_cons_true p e rest hpe] at h
          exact absurd h (by omega)

theorem completesAfterReleases_of_no_release (tr : List Event)
    (h : tr.countP isRelease = 0) : completesAfterReleases tr = true := by
  induction tr with
  | nil => rfl
  | cons e rest ih =>
      have hrest : rest.countP isRelease = 0 := by
        rw [List.countP_cons] at h
        omega
      have hall := countP_zero_all_not isRelease rest hrest
      cases e with
      | next j => rw [cAR_next, ih hrest]
      | release k => rw [cAR_release, ih hrest]
      | complete =>
          rw [cAR_complete, ih hrest, hall]
          rfl

theorem runOps_unregistered (toJSONs : RValue → String) (ops : List SubOp) (s : SubState)
    (h : s.registered = false) :
    (runOps toJSONs s ops).1 = s ∧
    (runOps toJSONs s ops).2.countP isComplete = 0 ∧
    (runOps toJSONs s ops).2.countP isRelease = 0 := by
  induction ops generalizing s with
  | nil => exact ⟨rfl, rfl, rfl⟩
  | cons op rest ih =>
      cases op with
      | unsub f =>
          rcases ih s h with ⟨h1, h2, h3⟩
          have hstep := Unsubscribe_not_registered f s h
          refine ⟨?_, ?_, ?_⟩
          · simp only [runOps, hstep]
            exact h1
          · simp only [runOps, hstep, List.nil_append]
            exact h2
          · simp only [runOps, hstep, List.nil_append]
            exact h3
      | deliver p =>
          rcases ih s h with ⟨h1, h2, h3⟩
          refine ⟨?_, ?_, ?_⟩
          · simp only [runOps]
            exact h1
          · simp only [runOps]
            rw [countP_cons_false _ _ _ (isComplete_deliver toJSONs p)]
            exact h2
          · simp only [runOps]
            rw [countP_cons_false _ _ _ (isRelease_deliver toJSONs p)]
            exact h3

theorem runOps_trace_bounds (toJSONs : RValue → String) (ops : List SubOp) (s : SubState) :
    (runOps toJSONs s ops).2.countP isComplete ≤ 1 ∧
    (runOps toJSONs s ops).2.countP isRelease ≤ 1 ∧
    completesAfterReleases (runOps toJSONs s ops).2 = true := by
  induction ops generalizing s with
  | nil => exact ⟨Nat.zero_le 1, Nat.zero_le 1, rfl⟩
  | cons op rest ih =>
      cases op with
      | deliver p =>
          rcases ih s with ⟨h1, h2, h3⟩
          refine ⟨?_, ?_, ?_⟩
          · simp only [runOps]
            rw [countP_cons_false _ _ _ (isComplete_deliver toJSONs p)]
            exact h1
          · simp only [runOps]
            rw [countP_cons_false _ _ _ (isRelease_deliver toJSONs p)]
            exact h2
          · simp only [runOps]
            rw [cAR_deliver]
            exact h3
      | unsub f =>
          cases hreg : s.registered with
          | false =>
              have hstep := Unsubscribe_not_registered f s hreg
              rcases ih s with ⟨h1, h2, h3⟩
              refine ⟨?_, ?_, ?_⟩ <;> simp only [runOps, hstep, List.nil_append]
              · exact h1
              · exact h2
              · exact h3
          | true =>
              have hafter := Unsubscribe_registered_state f s hreg
              have hafter2 : ((Subscription.Unsubscribe f s).1).registered = false := by
                rw [hafter]
              rcases runOps_unregistered toJSONs rest (Subscription.Unsubscribe f s).1 hafter2
                with ⟨_, hc0, hr0⟩
              have hall := countP_zero_all_not isRelease _ hr0
              have hrestOK := completesAfterReleases_of_no_release _ hr0
              rcases Unsubscribe_events_cases f s with hnil | ⟨k, htwo⟩
              · refine ⟨?_, ?_, ?_⟩ <;> simp only [runOps, hnil, List.nil_append]
                · omega
                · omega
                · exact hrestOK
              · refine ⟨?_, ?_, ?_⟩ <;>
                  simp only [runOps, htwo, List.cons_append, List.nil_append]
                · rw [countP_cons_false _ _ _ (isComplete_release k),
                    countP_cons_true _ _ _ isComplete_complete, hc0]
                · rw [countP_cons_true _ _ _ (isRelease_release k),
                    countP_cons_false _ _ _ isRelease_complete, hr0]
                · rw [cAR_release, cAR_complete, hall, hrestOK]
                  rfl

/-- C3: over any sequence of operations on one Subscription (any number of
unsubscribe calls — explicit, destructor-driven, or from `stopService` — and
any producer deliveries), the completion callback fires at most once, the
remote stream release is requested at most once, and every release precedes
every completion in the observable trace. -/
theorem C3_subscription_lifecycle (toJSONs : RValue → String) (c : Creation)
    (ops : List SubOp) :
    (lifeTrace toJSONs c ops).countP isComplete ≤ 1 ∧
    (lifeTrace toJSONs c ops).countP isRelease ≤ 1 ∧
    completesAfterReleases (lifeTrace toJSONs c ops) = true := by
  cases c with
  | streaming key =>
      have hb := runOps_trace_bounds toJSONs ops
        (Subscription.Subscribe key { registered := false, key := none })
      simpa only [lifeTrace, createSub, List.nil_append] using hb
  | oneShot p =>
      have hstart : ({ registered := false, key := none } : SubState).registered = false := rfl
      rcases runOps_unregistered toJSONs ops { registered := false, key := none } hstart
        with ⟨_, hc0, hr0⟩
      have hall := countP_zero_all_not isRelease _ hr0
      have hrestOK := completesAfterReleases_of_no_release _ hr0
      refine ⟨?_, ?_, ?_⟩ <;>
        simp only [lifeTrace, createSub, List.cons_append, List.nil_append]
      · rw [countP_cons_false _ _ _ (isComplete_deliver toJSONs p),
          countP_cons_true _ _ _ isComplete_complete, hc0]
      · rw [countP_cons_false _ _ _ (isRelease_deliver toJSONs p),
          countP_cons_false _ _ _ isRelease_complete, hr0]
        exact Nat.zero_le 1
      · rw [cAR_deliver, cAR_complete, hall, hrestOK]
        rfl

/-- C7: `Subscription::Deliver` hands exactly one serialized document to the
next-callback and never lets an exception escape (the embedded function is
total).  The document is: the producer's value unchanged on success;
`{data: null, errors: <structured errors>}` for a classified
`schema_exception`; `{data: null, errors: "<fixed text><what()>"}` for any
other exception, where the fixed text is
"Caught exception delivering subscription payload: ". -/
theorem C7_deliver_document (toJSONs : RValue → String) (p : PayloadResult) :
    Subscription.Deliver toJSONs p =
      Event.next (toJSONs (Subscription.DeliverDoc p)) ∧
    (∀ v, p = PayloadResult.value v → Subscription.DeliverDoc p = v) ∧
    (∀ errs, p = PayloadResult.schemaError errs →
       Subscription.DeliverDoc p =
         RValue.map [("data", RValue.null), ("errors", errs)]) ∧
    (∀ w, p = PayloadResult.otherError w →
       Subscription.DeliverDoc p =
         RValue.map [("data", RValue.null),
           ("errors",
            RValue.str ("Caught exception delivering subscription payload: " ++ w))]) := by
  refine ⟨rfl, ?_, ?_, ?_⟩
  · intro v hv
    rw [hv]
    rfl
  · intro errs he
    rw [he]
    rfl
  · intro w hw
    rw [hw]
    rfl

/-- C7 at concrete payloads: the three document shapes evaluated. -/
theorem C7_deliver_document_witness :
    Subscription.DeliverDoc (PayloadResult.value (RValue.boolean true)) =
      RValue.boolean true ∧
    Subscription.DeliverDoc (PayloadResult.schemaError (RValue.list [])) =
      RValue.map [("data", RValue.null), ("errors", RValue.list [])] ∧
    Subscription.DeliverDoc (PayloadResult.otherError "boom") =
      RValue.map [("data", RValue.null),
        ("errors",
         RValue.str ("Caught exception delivering subscription payload: " ++ "boom"))] :=
  ⟨(C7_deliver_document (fun _ => "") (PayloadResult.value (RValue.boolean true))).2.1
      (RValue.boolean true) rfl,
   (C7_deliver_document (fun _ => "") (PayloadResult.schemaError (RValue.list []))).2.2.1
      (RValue.list []) rfl,
   (C7_deliver_document (fun _ => "") (PayloadResult.otherError "boom")).2.2.2 "boom" rfl⟩

theorem maxKeys_eq_none {α : Type} (m : List (Int × α)) (h : maxKeys m = none) :
    m = [] := by
  cases m with
  | nil => rfl
  | cons p rest =>
      exfalso
      obtain ⟨k, v⟩ := p
      unfold maxKeys at h
      cases hr : maxKeys rest with
      | none =>
          rw [hr] at h
          exact absurd h (by simp)
      | some mr =>
          rw [hr] at h
          exact absurd h (by simp)

theorem maxKeys_mem_le {α : Type} (m : List (Int × α)) (mx : Int)
    (h : maxKeys m = some mx) :
    mx ∈ keyList m ∧ ∀ k ∈ keyList m, k ≤ mx := by
  induction m generalizing mx with
  | nil => simp [maxKeys] at h
  | cons p rest ih =>
      obtain ⟨k0, v0⟩ := p
      cases hr : maxKeys rest with
      | none =>
          have hnil := maxKeys_eq_none rest hr
          unfold maxKeys at h
          rw [hr] at h
          simp at h
          subst h
          subst hnil
          constructor
          · simp [keyList]
          · intro k hk
            simp [keyList] at hk
            omega
      | some mr =>
          unfold maxKeys at h
          rw [hr] at h
          simp at h
          rcases ih mr hr with ⟨hmem, hle⟩
          by_cases hcmp : k0 ≤ mr
          · rw [if_pos hcmp] at h
            subst h
            constructor
            · simp [keyList] at hmem ⊢
              exact Or.inr hmem
            · intro k hk
              simp [keyList] at hk
              rcases hk with hk | hk
              · omega
              · exact hle k (by simp [keyList, hk])
          · rw [if_neg hcmp] at h
            subst h
            constructor
            · simp [keyList]
            · intro k hk
              simp [keyList] at hk
              rcases hk with hk | hk
              · omega
              · have := hle k (by simp [keyList, hk])
                omega

theorem freshId_gt {α : Type} (m : List (Int × α)) (k : Int) (hk : k ∈ keyList m) :
    k < freshId m := by
  cases h : maxKeys m with
  | none =>
      rw [maxKeys_eq_none m h] at hk
      simp [keyList] at hk
  | some mx =>
      have hle := (maxKeys_mem_le m mx h).2 k hk
      have hfid : freshId m = mx + 1 := by
        unfold freshId
        rw [h]
      omega

theorem eraseKey_keys_ne {α : Type} (m : List (Int × α)) (j : Int) :
    ∀ p ∈ eraseKey m j, p.1 ≠ j := by
  intro p hp
  have := List.of_mem_filter hp
  simpa using this

theorem lookupKey_none {α : Type} (m : List (Int × α)) (j : Int)
    (h : ∀ p ∈ m, p.1 ≠ j) : lookupKey m j = none := by
  induction m with
  | nil => rfl
  | cons p rest ih =>
      obtain ⟨k, w⟩ := p
      simp only [lookupKey, if_neg (h (k, w) (by simp))]
      exact ih (fun q hq => h q (by simp [hq]))

theorem lookupKey_eraseKey_self {α : Type} (m : List (Int × α)) (j : Int) :
    lookupKey (eraseKey m j) j = none :=
  lookupKey_none _ _ (eraseKey_keys_ne m j)

theorem lookupKey_append_fresh {α : Type} (l : List (Int × α)) (j : Int) (v : α)
    (h : ∀ p ∈ l, p.1 ≠ j) : lookupKey (l ++ [(j, v)]) j = some v := by
  induction l with
  | nil => simp [lookupKey]
  | cons p rest ih =>
      obtain ⟨k, w⟩ := p
      simp only [List.cons_append, lookupKey, if_neg (h (k, w) (by simp))]
      exact ih (fun q hq => h q (by simp [hq]))

theorem lookupKey_insertKey_self {α : Type} (m : List (Int × α)) (j : Int) (v : α) :
    lookupKey (insertKey m j v) j = some v :=
  lookupKey_append_fresh _ j v (eraseKey_keys_ne m j)

theorem lookupKey_mem {α : Type} (m : List (Int × α)) (j : Int) (v : α)
    (h : lookupKey m j = some v) : j ∈ keyList m := by
  induction m with
  | nil => exact absurd h (by simp [lookupKey])
  | cons p rest ih =>
      obtain ⟨k, w⟩ := p
      by_cases hk : k = j
      · simp [keyList, hk]
      · simp only [lookupKey, if_neg hk] at h
        simp [keyList]
        exact Or.inr (by simpa [keyList] using ih h)

theorem subscribe_eq_found (env : Env) (st : ImplState) (queryId : Int)
    (opName vars ast : String) (pv : RValue)
    (hq : lookupKey st.queryMap queryId = some ast)
    (hv : (if vars = "" then some (RValue.map []) else env.parseJSONv vars) = some pv) :
    Impl.subscribe env st queryId opName vars =
      Impl.subscribeVars env st ast opName pv := by
  unfold Impl.subscribe
  rw [hq, hv]

theorem subscribe_ok_id (env : Env) (st : ImplState) (queryId : Int)
    (opName vars : String) (r : SubscribeOk)
    (h : Impl.subscribe env st queryId opName vars = Except.ok r) :
    r.subscriptionId = freshId st.subscriptionMap := by
  unfold Impl.subscribe at h
  split at h
  · exact absurd h (by simp)
  · split at h
    · exact absurd h (by simp)
    · unfold Impl.subscribeVars at h
      split at h
      · exact absurd h (by simp)
      · split at h
        · exact absurd h (by simp)
        · injection h with h2
          subst h2
          unfold Impl.subscribeRegister
          split
          · rfl
          · rfl

theorem subscribe_oneshot_eq (env : Env) (st : ImplState) (queryId : Int)
    (opName vars ast : String) (pv : RValue) (gen : Nat)
    (hq : lookupKey st.queryMap queryId = some ast)
    (hv : (if vars = "" then some (RValue.map []) else env.parseJSONv vars) = some pv)
    (hmap : pv.isMapType = true)
    (hs : st.service = some gen)
    (hkind : env.findOperationKind ast opName ≠ strSubscription) :
    Impl.subscribe env st queryId opName vars =
      Except.ok (oneshotOk env st ast opName pv gen) := by
  rw [subscribe_eq_found env st queryId opName vars ast pv hq hv]
  unfold Impl.subscribeVars
  rw [hmap, if_neg (show ¬(true = false) by decide), hs]
  show Except.ok (Impl.subscribeRegister env st ast opName pv gen) = _
  unfold Impl.subscribeRegister
  rw [if_neg hkind]

theorem subscribe_streaming_eq (env : Env) (st : ImplState) (queryId : Int)
    (opName vars ast : String) (pv : RValue) (gen : Nat)
    (hq : lookupKey st.queryMap queryId = some ast)
    (hv : (if vars = "" then some (RValue.map []) else env.parseJSONv vars) = some pv)
    (hmap : pv.isMapType = true)
    (hs : st.service = some gen)
    (hkind : env.findOperationKind ast opName = strSubscription) :
    Impl.subscribe env st queryId opName vars =
      Except.ok (streamingOk env st ast opName pv gen) := by
  rw [subscribe_eq_found env st queryId opName vars ast pv hq hv]
  unfold Impl.subscribeVars
  rw [hmap, if_neg (show ¬(true = false) by decide), hs]
  show Except.ok (Impl.subscribeRegister env st ast opName pv gen) = _
  unfold Impl.subscribeRegister
  rw [if_pos hkind]

/-- C2: the claim that a handle always equals (maximum handle EVER issued) + 1
and that a discarded handle value is never reissued is false: allocation is
`map.empty() ? 1 : map.crbegin()->first + 1`, i.e. max LIVE key + 1.
Concretely: parse issues handle 1, parse issues handle 2, discarding handle 2
and parsing again reissues the discarded handle 2 (the claim demands 3). -/
theorem C2_counterexample :
    (Impl.parseQuery envStream ImplState.initial "a").2 = Except.ok 1 ∧
    (Impl.parseQuery envStream
        (Impl.parseQuery envStream ImplState.initial "a").1 "b").2 = Except.ok 2 ∧
    (Impl.parseQuery envStream
        (Impl.discardQuery
          (Impl.parseQuery envStream
            (Impl.parseQuery envStream ImplState.initial "a").1 "b").1 2)
        "c").2 = Except.ok 2 :=
  ⟨rfl, rfl, rfl⟩

/-- C2 (amended): each successfully issued QueryHandle equals (maximum
currently live handle) + 1, or 1 when the query registry is empty; it is
therefore strictly greater than every live handle and unique among live
handles — but a discarded handle may be reissued once no larger live handle
remains.  The same allocation holds independently for SubscriptionHandle. -/
theorem C2_allocation (env : Env) (st : ImplState) (q : String) :
    ((env.peg q).isSome →
      (Impl.parseQuery env st q).2 = Except.ok (freshId st.queryMap) ∧
      (∀ k ∈ keyList st.queryMap, k < freshId st.queryMap) ∧
      (st.queryMap = [] → freshId st.queryMap = 1) ∧
      (∀ mx, maxKeys st.queryMap = some mx →
        mx ∈ keyList st.queryMap ∧ (∀ k ∈ keyList st.queryMap, k ≤ mx) ∧
        freshId st.queryMap = mx + 1) ∧
      lookupKey st.queryMap (freshId st.queryMap) = none) ∧
    (∀ queryId opName vars r,
      Impl.subscribe env st queryId opName vars = Except.ok r →
      (∀ k ∈ keyList st.subscriptionMap, k < r.subscriptionId) ∧
      (st.subscriptionMap = [] → r.subscriptionId = 1) ∧
      (∀ mx, maxKeys st.subscriptionMap = some mx →
        mx ∈ keyList st.subscriptionMap ∧ (∀ k ∈ keyList st.subscriptionMap, k ≤ mx) ∧
        r.subscriptionId = mx + 1) ∧
      lookupKey st.subscriptionMap r.subscriptionId = none) := by
  constructor
  · intro hq
    rcases Option.isSome_iff_exists.mp hq with ⟨ast, hast⟩
    refine ⟨?_, ?_, ?_, ?_, ?_⟩
    · unfold Impl.parseQuery
      rw [hast]
    · intro k hk
      exact freshId_gt _ k hk
    · intro hnil
      rw [hnil]
      rfl
    · intro mx hmx
      rcases maxKeys_mem_le _ mx hmx with ⟨hmem, hle⟩
      exact ⟨hmem, hle, by unfold freshId; rw [hmx]⟩
    · refine lookupKey_none _ _ (fun p hp hpj => ?_)
      have hmem : p.1 ∈ keyList st.queryMap := List.mem_map.mpr ⟨p, hp, rfl⟩
      have hlt := freshId_gt st.queryMap p.1 hmem
      rw [hpj] at hlt
      omega
  · intro queryId opName vars r hok
    have hid := subscribe_ok_id env st queryId opName vars r hok
    refine ⟨?_, ?_, ?_, ?_⟩
    · intro k hk
      rw [hid]
      exact freshId_gt _ k hk
    · intro hnil
      rw [hid, hnil]
      rfl
    · intro mx hmx
      rcases maxKeys_mem_le _ mx hmx with ⟨hmem, hle⟩
      exact ⟨hmem, hle, by rw [hid]; unfold freshId; rw [hmx]⟩
    · rw [hid]
      refine lookupKey_none _ _ (fun p hp hpj => ?_)
      have hmem : p.1 ∈ keyList st.subscriptionMap := List.mem_map.mpr ⟨p, hp, rfl⟩
      have hlt := freshId_gt st.subscriptionMap p.1 hmem
      rw [hpj] at hlt
      omega

/-- C2 amended claim at a concrete state: a successful parse in a registry
holding handles 1 and 3 issues handle 4 = max live + 1, and a subscribe with
live subscription handle 2 issues handle 3 = 2 + 1. -/
theorem C2_allocation_witness :
    (Impl.parseQuery envStream stAlloc "c").2 = Except.ok 4 ∧
    (∃ r, Impl.subscribe envStream stAlloc 1 "" "" = Except.ok r ∧
      r.subscriptionId = 2 + 1) := by
  have h1 := (C2_allocation envStream stAlloc "c").1 (by rfl)
  have hok := subscribe_streaming_eq envStream stAlloc 1 "" "" "a" (RValue.map []) 0
    rfl rfl rfl rfl rfl
  have h2 := (C2_allocation envStream stAlloc "c").2 1 "" "" _ hok
  refine ⟨?_, ⟨_, hok, (h2.2.2.1 2 rfl).2.2⟩⟩
  rw [h1.1]
  rfl

/-- C9: when `parseQuery` fails with a parse error, the query registry is
unchanged and the handle value computed for the failed call is not consumed:
the next successful `parseQuery` returns exactly that handle. -/
theorem C9_parse_failure (env : Env) (st : ImplState) (q : String)
    (h : env.peg q = none) :
    (Impl.parseQuery env st q).1 = st ∧
    (Impl.parseQuery env st q).2 = Except.error () ∧
    (∀ q2 ast2, env.peg q2 = some ast2 →
       (Impl.parseQuery env (Impl.parseQuery env st q).1 q2).2 =
         Except.ok (freshId st.queryMap)) := by
  have h1 : Impl.parseQuery env st q = (st, Except.error ()) := by
    unfold Impl.parseQuery
    rw [h]
  refine ⟨by rw [h1], by rw [h1], ?_⟩
  intro q2 ast2 h2
  rw [h1]
  unfold Impl.parseQuery
  rw [h2]

/-- C9 at a concrete run: a failed parse of "bad" leaves the registry empty
and the following successful parse still gets handle 1. -/
theorem C9_parse_failure_witness :
    (Impl.parseQuery envBadParse ImplState.initial "bad").1 = ImplState.initial ∧
    (Impl.parseQuery envBadParse
        (Impl.parseQuery envBadParse ImplState.initial "bad").1 "ok").2 =
      Except.ok 1 := by
  have h := C9_parse_failure envBadParse ImplState.initial "bad" rfl
  exact ⟨h.1, h.2.2 "ok" "ok" rfl⟩

/-- C5: subscribing to an operation classified as a Query or Mutation emits
exactly one next-callback invocation — carrying the serialized document of
the one-shot `resolve` result — immediately followed by exactly one
completion-callback invocation, both inside the `subscribe` call; the stored
subscription records no stream key and is left unregistered, so a later
`unsubscribe` emits no callback and no remote release. -/
theorem C5_oneshot (env : Env) (st : ImplState) (queryId : Int)
    (opName vars ast : String) (pv : RValue) (gen : Nat)
    (hq : lookupKey st.queryMap queryId = some ast)
    (hv : (if vars = "" then some (RValue.map []) else env.parseJSONv vars) = some pv)
    (hmap : pv.isMapType = true)
    (hs : st.service = some gen)
    (hkind : env.findOperationKind ast opName ≠ strSubscription) :
    ∃ r, Impl.subscribe env st queryId opName vars = Except.ok r ∧
      r.events = [(r.subscriptionId,
          Event.next (env.toJSONs (Subscription.DeliverDoc (env.resolve ast opName pv)))),
        (r.subscriptionId, Event.complete)] ∧
      lookupKey r.state.subscriptionMap r.subscriptionId =
        some { alive := true, state := { registered := false, key := none },
               gen := gen, doc := ast } ∧
      (Impl.unsubscribe r.state r.subscriptionId).2 = [] := by
  have hlk : lookupKey (oneshotOk env st ast opName pv gen).state.subscriptionMap
      (oneshotOk env st ast opName pv gen).subscriptionId =
      some { alive := true, state := { registered := false, key := none },
             gen := gen, doc := ast } :=
    lookupKey_insertKey_self _ _ _
  refine ⟨_, subscribe_oneshot_eq env st queryId opName vars ast pv gen
    hq hv hmap hs hkind, rfl, hlk, ?_⟩
  unfold Impl.unsubscribe
  rw [hlk]
  rfl

/-- C5 at a concrete run: with the one-shot oracle, subscribing after one
parse yields the next-then-complete event pair for handle 1 and the later
unsubscribe is silent. -/
theorem C5_oneshot_witness :
    ∃ r, Impl.subscribe envQuery
        (Impl.startService (Impl.parseQuery envQuery ImplState.initial "q").1)
        1 "" "" = Except.ok r ∧
      r.events = [(r.subscriptionId,
          Event.next (envQuery.toJSONs (Subscription.DeliverDoc
            (envQuery.resolve "q" "" (RValue.map []))))),
        (r.subscriptionId, Event.complete)] ∧
      (Impl.unsubscribe r.state r.subscriptionId).2 = [] := by
  rcases C5_oneshot envQuery
      (Impl.startService (Impl.parseQuery envQuery ImplState.initial "q").1)
      1 "" "" "q" (RValue.map []) 0 rfl rfl rfl rfl (by decide)
    with ⟨r, h1, h2, h3, h4⟩
  exact ⟨r, h1, h2, h4⟩

/-- C6: `subscribe` fails with UnknownQuery when the query handle is not
registered; with InvalidVariables when the variables text parses to a value
whose tree-tag is not a map (an empty variables string is treated as an
empty map and never yields a variables failure); and with ServiceNotStarted
when no backing service handle is held.  Every failure is thrown before a
SubscriptionHandle is computed: the state transformer leaves the registries
and the service handle untouched and emits no event. -/
theorem C6_subscribe_errors (env : Env) (st : ImplState) (queryId : Int)
    (opName vars : String) :
    (lookupKey st.queryMap queryId = none →
       Impl.subscribe env st queryId opName vars =
         Except.error SubscribeError.unknownQuery) ∧
    (∀ ast pv, lookupKey st.queryMap queryId = some ast →
       (if vars = "" then some (RValue.map []) else env.parseJSONv vars) = some pv →
       pv.isMapType = false →
       Impl.subscribe env st queryId opName vars =
         Except.error SubscribeError.invalidVariables) ∧
    (∀ ast, lookupKey st.queryMap queryId = some ast → vars = "" →
       Impl.subscribe env st queryId opName vars ≠
         Except.error SubscribeError.invalidVariables ∧
       Impl.subscribe env st queryId opName vars ≠
         Except.error SubscribeError.badVariablesJson) ∧
    (∀ ast pv, lookupKey st.queryMap queryId = some ast →
       (if vars = "" then some (RValue.map []) else env.parseJSONv vars) = some pv →
       pv.isMapType = true → st.service = none →
       Impl.subscribe env st queryId opName vars =
         Except.error SubscribeError.serviceNotStarted) ∧
    (∀ e, Impl.subscribe env st queryId opName vars = Except.error e →
       Impl.subscribeStep env st queryId opName vars = (st, [], Except.error e)) := by
  refine ⟨?_, ?_, ?_, ?_, ?_⟩
  · intro hq
    unfold Impl.subscribe
    rw [hq]
  · intro ast pv hq hv hmap
    rw [subscribe_eq_found env st queryId opName vars ast pv hq hv]
    unfold Impl.subscribeVars
    rw [hmap]
    rfl
  · intro ast hq hvars
    subst hvars
    rw [subscribe_eq_found env st queryId opName "" ast (RValue.map []) hq (if_pos rfl)]
    unfold Impl.subscribeVars
    rw [if_neg (show ¬((RValue.map []).isMapType = false) by decide)]
    cases hserv : st.service with
    | none =>
        constructor
        · show Except.error SubscribeError.serviceNotStarted ≠ _
          simp
        · show Except.error SubscribeError.serviceNotStarted ≠ _
          simp
    | some gen =>
        constructor
        · show Except.ok (Impl.subscribeRegister env st ast opName (RValue.map []) gen) ≠ _
          simp
        · show Except.ok (Impl.subscribeRegister env st ast opName (RValue.map []) gen) ≠ _
          simp
  · intro ast pv hq hv hmap hserv
    rw [subscribe_eq_found env st queryId opName vars ast pv hq hv]
    unfold Impl.subscribeVars
    rw [hmap, if_neg (show ¬(true = false) by decide), hserv]
  · intro e he
    unfold Impl.subscribeStep
    rw [he]

/-- C6 at concrete inputs: an empty registry yields UnknownQuery; a non-map
variables payload yields InvalidVariables; a missing service yields
ServiceNotStarted; each leaves the state unchanged. -/
theorem C6_subscribe_errors_witness :
    Impl.subscribe envStream ImplState.initial 1 "" "" =
      Except.error SubscribeError.unknownQuery ∧
    Impl.subscribe { envStream with parseJSONv := fun _ => some (RValue.intV 5) }
        { ImplState.initial with queryMap := [(1, "q")] } 1 "" "[1]" =
      Except.error SubscribeError.invalidVariables ∧
    Impl.subscribe envStream { ImplState.initial with queryMap := [(1, "q")] } 1 "" "" =
      Except.error SubscribeError.serviceNotStarted ∧
    Impl.subscribe envStream { ImplState.initial with queryMap := [(1, "q")] } 1 "" "" ≠
      Except.error SubscribeError.invalidVariables ∧
    Impl.subscribeStep envStream ImplState.initial 1 "" "" =
      (ImplState.initial, [], Except.error SubscribeError.unknownQuery) := by
  have h1 := (C6_subscribe_errors envStream ImplState.initial 1 "" "").1 rfl
  have h2 := (C6_subscribe_errors
      { envStream with parseJSONv := fun _ => some (RValue.intV 5) }
      { ImplState.initial with queryMap := [(1, "q")] } 1 "" "[1]").2.1
    "q" (RValue.intV 5) rfl rfl rfl
  have h3 := (C6_subscribe_errors envStream
      { ImplState.initial with queryMap := [(1, "q")] } 1 "" "").2.2.2.1
    "q" (RValue.map []) rfl rfl rfl rfl
  have h35 := (C6_subscribe_errors envStream
      { ImplState.initial with queryMap := [(1, "q")] } 1 "" "").2.2.1
    "q" rfl rfl
  have h4 := (C6_subscribe_errors envStream ImplState.initial 1 "" "").2.2.2.2
    SubscribeError.unknownQuery h1
  exact ⟨h1, h2, h3, h35.1, h4⟩

/-- C8: when several `subscribe` preconditions are violated at once the
failure priority follows the order of the checks in the code: an
unregistered query handle wins over everything (UnknownQuery is reported
before the variables text is even examined — the result does not depend on
the variables oracle), and a non-map variables value is reported before the
missing service handle. -/
theorem C8_error_priority (env : Env) (st : ImplState) (queryId : Int)
    (opName vars : String) :
    (lookupKey st.queryMap queryId = none → st.service = none →
       Impl.subscribe env st queryId opName vars =
         Except.error SubscribeError.unknownQuery) ∧
    (∀ ast pv, lookupKey st.queryMap queryId = some ast →
       (if vars = "" then some (RValue.map []) else env.parseJSONv vars) = some pv →
       pv.isMapType = false → st.service = none →
       Impl.subscribe env st queryId opName vars =
         Except.error SubscribeError.invalidVariables) := by
  constructor
  · intro hq _
    unfold Impl.subscribe
    rw [hq]
  · intro ast pv hq hv hmap _
    rw [subscribe_eq_found env st queryId opName vars ast pv hq hv]
    unfold Impl.subscribeVars
    rw [hmap]
    rfl

/-- C8 at a concrete input: an unknown handle together with a non-map
variables payload and no running service fails with UnknownQuery; known
handle with non-map variables and no service fails with InvalidVariables. -/
theorem C8_error_priority_witness :
    Impl.subscribe { envStream with parseJSONv := fun _ => some (RValue.intV 5) }
        ImplState.initial 1 "" "[1]" = Except.error SubscribeError.unknownQuery ∧
    Impl.subscribe { envStream with parseJSONv := fun _ => some (RValue.intV 5) }
        { ImplState.initial with queryMap := [(1, "q")] } 1 "" "[1]" =
      Except.error SubscribeError.invalidVariables := by
  have h1 := (C8_error_priority
      { envStream with parseJSONv := fun _ => some (RValue.intV 5) }
      ImplState.initial 1 "" "[1]").1 rfl rfl
  have h2 := (C8_error_priority
      { envStream with parseJSONv := fun _ => some (RValue.intV 5) }
      { ImplState.initial with queryMap := [(1, "q")] } 1 "" "[1]").2
    "q" (RValue.intV 5) rfl rfl rfl rfl
  exact ⟨h1, h2⟩

theorem stopEntryEvents_count_self (gen : Nat) (sid : Int)
    (rs : RegisteredSubscription) :
    (stopEntryEvents gen (sid, rs)).countP (fun e => e.1 == sid && isComplete e.2) =
      (if rs.alive = true ∧ rs.state.registered = true ∧
          rs.state.key.isSome = true ∧ rs.gen = gen then 1 else 0) := by
  obtain ⟨alive, ⟨reg, key⟩, g, d⟩ := rs
  cases alive with
  | false =>
      simp [stopEntryEvents, RegisteredSubscription.Unsubscribe]
  | true =>
      cases reg with
      | false =>
          simp [stopEntryEvents, RegisteredSubscription.Unsubscribe,
            Subscription.Unsubscribe]
      | true =>
          cases key with
          | none =>
              simp [stopEntryEvents, RegisteredSubscription.Unsubscribe,
                Subscription.Unsubscribe]
          | some k =>
              by_cases hg : g = gen
              · have hd : (decide (gen = g)) = true := by
                  rw [decide_eq_true_eq]
                  omega
                simp [stopEntryEvents, RegisteredSubscription.Unsubscribe,
                  Subscription.Unsubscribe, hd, isComplete, hg, List.countP_cons]
              · have hd : (decide (gen = g)) = false := by
                  rw [decide_eq_false_iff_not]
                  omega
                simp [stopEntryEvents, RegisteredSubscription.Unsubscribe,
                  Subscription.Unsubscribe, hd, hg]

theorem stopEntryEvents_count_ne (gen : Nat) (sid : Int)
    (p : Int × RegisteredSubscription) (hp : p.1 ≠ sid) :
    (stopEntryEvents gen p).countP (fun e => e.1 == sid && isComplete e.2) = 0 := by
  unfold stopEntryEvents
  rw [List.countP_map, List.countP_eq_zero]
  intro e he
  simp [hp]

theorem stopEvents_count_zero (gen : Nat) (sid : Int)
    (l : List (Int × RegisteredSubscription)) (h : sid ∉ keyList l) :
    (l.flatMap (stopEntryEvents gen)).countP
      (fun e => e.1 == sid && isComplete e.2) = 0 := by
  induction l with
  | nil => rfl
  | cons p rest ih =>
      rw [List.flatMap_cons, List.countP_append]
      have hcons : keyList (p :: rest) = p.1 :: keyList rest := rfl
      rw [hcons] at h
      have h1 : p.1 ≠ sid := fun hc => h (by rw [← hc]; exact List.mem_cons_self _ _)
      have h2 : sid ∉ keyList rest := fun hc => h (List.mem_cons_of_mem _ hc)
      rw [stopEntryEvents_count_ne gen sid p h1, ih h2]

theorem stopEvents_count_mem (gen : Nat) (sid : Int) (rs : RegisteredSubscription)
    (l : List (Int × RegisteredSubscription)) (hmem : (sid, rs) ∈ l)
    (hnodup : (keyList l).Nodup) :
    (l.flatMap (stopEntryEvents gen)).countP
      (fun e => e.1 == sid && isComplete e.2) =
      (stopEntryEvents gen (sid, rs)).countP
        (fun e => e.1 == sid && isComplete e.2) := by
  induction l with
  | nil => cases hmem
  | cons p rest ih =>
      rw [List.flatMap_cons, List.countP_append]
      have hcons : keyList (p :: rest) = p.1 :: keyList rest := rfl
      rw [hcons] at hnodup
      have hkeys := List.nodup_cons.mp hnodup
      rcases List.mem_cons.mp hmem with heq | hmem2
      · subst heq
        rw [stopEvents_count_zero gen sid rest hkeys.1]
        omega
      · have hne : p.1 ≠ sid := by
          intro hc
          exact hkeys.1 (by rw [hc]; exact List.mem_map.mpr ⟨(sid, rs), hmem2, rfl⟩)
        rw [stopEntryEvents_count_ne gen sid p hne, ih hmem2 hkeys.2]
        omega

/-- C4: the claim that after `stopService()` EVERY Subscription live at the
call has received exactly one completion callback is false for orphaned
subscriptions: after startService, parseQuery, a streaming subscribe (which
emits no event), a second startService (replacing the service handle and
expiring the first subscription's weak reference), the registry still holds
one live subscription, yet `stopService` emits no event at all — that
subscription never receives a completion callback. -/
theorem C4_counterexample :
    (Impl.subscribeStep envStream
        (Impl.startService (Impl.parseQuery envStream ImplState.initial "q").1)
        1 "" "").2.1 = [] ∧
    ((Impl.startService (Impl.subscribeStep envStream
        (Impl.startService (Impl.parseQuery envStream ImplState.initial "q").1)
        1 "" "").1).subscriptionMap).length = 1 ∧
    (Impl.stopService (Impl.startService (Impl.subscribeStep envStream
        (Impl.startService (Impl.parseQuery envStream ImplState.initial "q").1)
        1 "" "").1)).2 = [] :=
  ⟨rfl, rfl, rfl⟩

/-- C4 (amended): `stopService` with no held service handle is a no-op.  With
a held handle it empties both registries and releases the handle, and each
registry entry receives exactly one completion callback during the call iff
its Subscription is still owned, registered with a stream key, and was
created against the currently held service instance; entries orphaned by an
intervening `startService` (and one-shot entries, which completed during
`subscribe`) receive none. -/
theorem C4_stopService (st : ImplState) :
    (st.service = none → Impl.stopService st = (st, [])) ∧
    (∀ gen, st.service = some gen → (keyList st.subscriptionMap).Nodup →
      (Impl.stopService st).1.queryMap = [] ∧
      (Impl.stopService st).1.subscriptionMap = [] ∧
      (Impl.stopService st).1.service = none ∧
      (∀ sid rs, (sid, rs) ∈ st.subscriptionMap →
        (Impl.stopService st).2.countP (fun e => e.1 == sid && isComplete e.2) =
          (if rs.alive = true ∧ rs.state.registered = true ∧
              rs.state.key.isSome = true ∧ rs.gen = gen then 1 else 0))) := by
  constructor
  · intro h
    unfold Impl.stopService
    rw [h]
  · intro gen hs hnodup
    have hstop : Impl.stopService st =
        ({ st with service := none, subscriptionMap := [], queryMap := [] },
         st.subscriptionMap.flatMap (stopEntryEvents gen)) := by
      unfold Impl.stopService
      rw [hs]
    have h2 : (Impl.stopService st).2 =
        st.subscriptionMap.flatMap (stopEntryEvents gen) := by
      rw [hstop]
    refine ⟨by rw [hstop], by rw [hstop], by rw [hstop], ?_⟩
    intro sid rs hmem
    rw [h2, stopEvents_count_mem gen sid rs st.subscriptionMap hmem hnodup]
    exact stopEntryEvents_count_self gen sid rs

/-- C4 amended claim at a concrete state: one current-generation streaming
entry gets exactly one completion during `stopService` and the registry is
cleared. -/
theorem C4_stopService_witness :
    Impl.stopService ImplState.initial = (ImplState.initial, []) ∧
    (Impl.stopService
        { service := some 0, nextGen := 1, queryMap := [(5, "q")],
          subscriptionMap := [(1, rsLive)] }).1.subscriptionMap = [] ∧
    (Impl.stopService
        { service := some 0, nextGen := 1, queryMap := [(5, "q")],
          subscriptionMap := [(1, rsLive)] }).2.countP
      (fun e => e.1 == 1 && isComplete e.2) = 1 := by
  have h0 := (C4_stopService ImplState.initial).1 rfl
  have h := (C4_stopService
      { service := some 0, nextGen := 1, queryMap := [(5, "q")],
        subscriptionMap := [(1, rsLive)] }).2 0 rfl (by simp [keyList])
  refine ⟨h0, h.2.1, ?_⟩
  have hc := h.2.2.2 1 rsLive (by simp)
  rw [hc]
  rfl

/-- C10: a streaming registration stores its own copy of the parsed query
document in the registry entry, and `discardQuery` touches only the query
registry: the subscription registry and the service handle are unchanged, a
later producer push delivers identically, and a later unsubscribe emits
identical events — discarding the originating query handle does not affect
any subsequent delivery or completion on the subscription. -/
theorem C10_discard_frame (env : Env) (st : ImplState) (qid sid : Int)
    (p : PayloadResult) :
    (Impl.discardQuery st qid).subscriptionMap = st.subscriptionMap ∧
    (Impl.discardQuery st qid).service = st.service ∧
    lookupKey (Impl.discardQuery st qid).queryMap qid = none ∧
    Impl.pushPayload env (Impl.discardQuery st qid) sid p =
      Impl.pushPayload env st sid p ∧
    (Impl.unsubscribe (Impl.discardQuery st qid) sid).2 =
      (Impl.unsubscribe st sid).2 ∧
    (∀ opName vars ast pv gen,
      lookupKey st.queryMap qid = some ast →
      (if vars = "" then some (RValue.map []) else env.parseJSONv vars) = some pv →
      pv.isMapType = true →
      st.service = some gen →
      env.findOperationKind ast opName = strSubscription →
      ∃ r, Impl.subscribe env st qid opName vars = Except.ok r ∧
        lookupKey r.state.subscriptionMap r.subscriptionId =
          some { alive := true,
                 state := Subscription.Subscribe (env.subscribeKey ast opName pv)
                   { registered := false, key := none },
                 gen := gen, doc := ast }) := by
  refine ⟨rfl, rfl, lookupKey_eraseKey_self _ _, rfl, ?_, ?_⟩
  · unfold Impl.unsubscribe
    have hsm : (Impl.discardQuery st qid).subscriptionMap = st.subscriptionMap := rfl
    rw [hsm]
    cases hlk : lookupKey st.subscriptionMap sid with
    | none => rfl
    | some rs => rfl
  · intro opName vars ast pv gen hq hv hmap hs hkind
    exact ⟨streamingOk env st ast opName pv gen,
      subscribe_streaming_eq env st qid opName vars ast pv gen hq hv hmap hs hkind,
      lookupKey_insertKey_self _ _ _⟩

/-- C10 at a concrete state: discarding the originating query handle leaves
the push path identical, and a concrete streaming subscribe stores the
document copy in its registry entry. -/
theorem C10_discard_frame_witness :
    Impl.pushPayload envStream
        (Impl.discardQuery
          { service := some 0, nextGen := 1, queryMap := [(1, "q")],
            subscriptionMap := [(2, rsLive)] } 1) 2 (PayloadResult.value RValue.null) =
      Impl.pushPayload envStream
        { service := some 0, nextGen := 1, queryMap := [(1, "q")],
          subscriptionMap := [(2, rsLive)] } 2 (PayloadResult.value RValue.null) ∧
    (∃ r, Impl.subscribe envStream
        { service := some 0, nextGen := 1, queryMap := [(1, "q")],
          subscriptionMap := [(2, rsLive)] } 1 "" "" = Except.ok r ∧
      lookupKey r.state.subscriptionMap r.subscriptionId =
        some { alive := true,
               state := Subscription.Subscribe (envStream.subscribeKey "q" "" (RValue.map []))
                 { registered := false, key := none },
               gen := 0, doc := "q" }) := by
  have h := C10_discard_frame envStream
    { service := some 0, nextGen := 1, queryMap := [(1, "q")],
      subscriptionMap := [(2, rsLive)] } 1 2 (PayloadResult.value RValue.null)
  exact ⟨h.2.2.2.1, h.2.2.2.2.2 "" "" "q" (RValue.map []) 0 rfl rfl rfl rfl rfl⟩

end GqlMapi
